import Mathlib

/-!
Verification development for the resilient JSON HTTP client of `main.py`
(`MockAPIClient._request`, `get`, `post`) and the validation logic of the mock
backend endpoints of `mock_api.py` (`create_return`, `book_viewing`).

The retry loop is embedded shallowly: one call to `_request` is parameterised
by an `oracle : Nat → Attempt` giving, for each 0-based attempt index, the
outcome the underlying transport (`self._client.request` plus body decoding)
would produce on that attempt.  The embedding records, besides the returned
value or raised exception, the number of attempts performed, the list of
backoff delays slept (`asyncio.sleep(backoff)`), and the list of 1-based
attempt numbers for which a warning was logged.
-/

namespace AIDemo

/-- JSON values, the decoded form of a response body (`resp.json()`). -/
inductive Json where
  | null
  | bool (b : Bool)
  | num (n : Int)
  | str (s : String)
  | arr (elems : List Json)
  | obj (fields : List (String × Json))

/-- Outcome of one underlying transport attempt: either a connection-level
failure (`httpx.ConnectError` or `httpx.ReadTimeout` raised by
`self._client.request`), or a response carrying an HTTP status code and a body
that either decodes as JSON (`some`) or does not (`none`). -/
inductive Attempt where
  | connError
  | response (status : Nat) (body : Option Json)

/-- Exceptions that `_request` can raise to its caller.  `httpStatusError`
(`httpx.HTTPStatusError`, raised by `resp.raise_for_status()`) carries the
response details (status code and body); `decodeError` is the
`json.JSONDecodeError` raised by `resp.json()`; `assertionError` models a
failure of the `assert last_exc is not None` statement. -/
inductive Exc where
  | connError
  | httpStatusError (status : Nat) (body : Option Json)
  | decodeError (status : Nat)
  | assertionError

/-- How control leaves the `for attempt in range(3)` loop: `returned` by the
`return resp.json()` statement, `raised` by an exception not caught by the
`except` clauses (the JSON decode error), `broke` by a `break`, or `exhausted`
when the range runs out. -/
inductive ExitKind where
  | returned (j : Json)
  | raised (e : Exc)
  | broke
  | exhausted

/-- State observable when the retry loop has finished: how it exited, how many
attempts were performed, the final value of `last_exc`, the backoff delays
slept, and the 1-based attempt numbers that were logged as warnings. -/
structure LoopResult where
  exit : ExitKind
  attempts : Nat
  lastExc : Option Exc
  delays : List Rat
  warnings : List Nat

/-- Result of one `_request` call: the returned JSON value or raised
exception, together with the observable attempt count, delays and warnings. -/
structure RunResult where
  outcome : Except Exc Json
  attempts : Nat
  delays : List Rat
  warnings : List Nat

/-- The body of `for attempt in range(3)` in `MockAPIClient._request`,
processing the remaining attempt indices in order.  `backoff` and `last`
mirror the `backoff` and `last_exc` locals; `done` counts attempts already
performed; `ds` and `ws` accumulate the delays slept and the warned attempt
numbers. -/
def requestLoop (oracle : Nat → Attempt) :
    List Nat → Rat → Option Exc → Nat → List Rat → List Nat → LoopResult
  | [], _backoff, last, done, ds, ws => ⟨.exhausted, done, last, ds, ws⟩
  | attempt :: rest, backoff, last, _done, ds, ws =>
    match oracle attempt with
    | .connError =>
      -- except (httpx.ConnectError, httpx.ReadTimeout): warn and fall through
      -- to the sleep when attempt < 2, otherwise break.
      if attempt < 2 then
        requestLoop oracle rest (backoff * 2) (some .connError) (attempt + 1)
          (ds ++ [backoff]) (ws ++ [attempt + 1])
      else
        ⟨.broke, attempt + 1, some .connError, ds, ws⟩
    | .response s body =>
      if 200 ≤ s ∧ s < 300 then
        -- resp.raise_for_status() does not raise; return resp.json(), which
        -- raises an uncaught decode error when the body is not valid JSON.
        match body with
        | some j => ⟨.returned j, attempt + 1, last, ds, ws⟩
        | none => ⟨.raised (.decodeError s), attempt + 1, last, ds, ws⟩
      else if 500 ≤ s ∧ s < 600 ∧ attempt < 2 then
        -- except httpx.HTTPStatusError: warn and fall through to the sleep.
        requestLoop oracle rest (backoff * 2) (some (.httpStatusError s body)) (attempt + 1)
          (ds ++ [backoff]) (ws ++ [attempt + 1])
      else
        ⟨.broke, attempt + 1, some (.httpStatusError s body), ds, ws⟩

/-- `MockAPIClient._request`: run the loop over attempt indices 0, 1, 2 with
`backoff = 0.5` and `last_exc = None`; on `return` or an uncaught exception
propagate it, otherwise `assert last_exc is not None` and `raise last_exc`. -/
def _request (_method _url : String) (oracle : Nat → Attempt) : RunResult :=
  let lr := requestLoop oracle [0, 1, 2] (1 / 2) none 0 [] []
  match lr.exit with
  | .returned j => ⟨.ok j, lr.attempts, lr.delays, lr.warnings⟩
  | .raised e => ⟨.error e, lr.attempts, lr.delays, lr.warnings⟩
  | .broke | .exhausted =>
    match lr.lastExc with
    | some e => ⟨.error e, lr.attempts, lr.delays, lr.warnings⟩
    | none => ⟨.error .assertionError, lr.attempts, lr.delays, lr.warnings⟩

/-- `MockAPIClient.get`: `self._request("GET", url, params=params)`. -/
def get (url : String) (_params : Option Json) (oracle : Nat → Attempt) : RunResult :=
  _request "GET" url oracle

/-- `MockAPIClient.post`: `self._request("POST", url, json=payload)`. -/
def post (url : String) (_payload : Json) (oracle : Nat → Attempt) : RunResult :=
  _request "POST" url oracle

/-- Classification of one attempt outcome, following the branch structure of
the loop body: `ret` (2xx with decodable body, returned), `hardRaise` (2xx
with undecodable body, uncaught decode error), `transient` (connection error
or 5xx status, eligible for retry), `fatal` (any other status, immediate
break). -/
inductive Step where
  | ret (j : Json)
  | hardRaise (e : Exc)
  | transient (e : Exc)
  | fatal (e : Exc)

/-- Classify one transport attempt according to the loop body's branches. -/
def classify : Attempt → Step
  | .connError => .transient .connError
  | .response s body =>
    if 200 ≤ s ∧ s < 300 then
      match body with
      | some j => .ret j
      | none => .hardRaise (.decodeError s)
    else if 500 ≤ s ∧ s < 600 then .transient (.httpStatusError s body)
    else .fatal (.httpStatusError s body)

/-- Whether an attempt outcome is a retryable (transient) failure:
a connection-level error, or an HTTP status in 500–599. -/
def Attempt.retryable : Attempt → Bool
  | .connError => true
  | .response s _ => decide (500 ≤ s ∧ s < 600)

/-- The exception that an attempt outcome is surfaced as: connection errors as
`Exc.connError`, HTTP status errors carrying the response's status and body. -/
def Attempt.toExc : Attempt → Exc
  | .connError => .connError
  | .response s b => .httpStatusError s b

/-- Closed-form description of a `_request` call as a function of the
classification of its (up to three) attempts. -/
def reqSpec (c0 c1 c2 : Step) : RunResult :=
  match c0 with
  | .ret j => ⟨.ok j, 1, [], []⟩
  | .hardRaise e => ⟨.error e, 1, [], []⟩
  | .fatal e => ⟨.error e, 1, [], []⟩
  | .transient _ =>
    match c1 with
    | .ret j => ⟨.ok j, 2, [1 / 2], [1]⟩
    | .hardRaise e => ⟨.error e, 2, [1 / 2], [1]⟩
    | .fatal e => ⟨.error e, 2, [1 / 2], [1]⟩
    | .transient _ =>
      match c2 with
      | .ret j => ⟨.ok j, 3, [1 / 2, 1], [1, 2]⟩
      | .hardRaise e => ⟨.error e, 3, [1 / 2, 1], [1, 2]⟩
      | .fatal e => ⟨.error e, 3, [1 / 2, 1], [1, 2]⟩
      | .transient e => ⟨.error e, 3, [1 / 2, 1], [1, 2]⟩

theorem requestLoop_cons (oracle : Nat → Attempt) (a : Nat) (rest : List Nat)
    (b : Rat) (last : Option Exc) (done : Nat) (ds : List Rat) (ws : List Nat) :
    requestLoop oracle (a :: rest) b last done ds ws =
      match classify (oracle a) with
      | .ret j => ⟨.returned j, a + 1, last, ds, ws⟩
      | .hardRaise e => ⟨.raised e, a + 1, last, ds, ws⟩
      | .transient e =>
        if a < 2 then
          requestLoop oracle rest (b * 2) (some e) (a + 1) (ds ++ [b]) (ws ++ [a + 1])
        else ⟨.broke, a + 1, some e, ds, ws⟩
      | .fatal e => ⟨.broke, a + 1, some e, ds, ws⟩ := by
  rcases h : oracle a with _ | ⟨s, body⟩
  · simp [requestLoop, classify, h]
  · by_cases h2 : 200 ≤ s ∧ s < 300
    · rcases body with _ | j <;> simp [requestLoop, classify, h, h2]
    · by_cases h5 : 500 ≤ s ∧ s < 600
      · by_cases ha : a < 2 <;>
          simp [requestLoop, classify, h, h2, h5, ha]
      · have h5' : ¬ (500 ≤ s ∧ s < 600 ∧ a < 2) := fun hc => h5 ⟨hc.1, hc.2.1⟩
        simp [requestLoop, classify, h, h2, h5, h5']

/-- Master characterisation: the result of a `_request` call is determined by
the classification of the three attempt outcomes. -/
theorem request_eq_reqSpec (method url : String) (oracle : Nat → Attempt) :
    _request method url oracle =
      reqSpec (classify (oracle 0)) (classify (oracle 1)) (classify (oracle 2)) := by
  unfold _request
  rw [requestLoop_cons]
  cases hc0 : classify (oracle 0) with
  | ret j0 => rfl
  | hardRaise e0 => rfl
  | fatal e0 => rfl
  | transient e0 =>
    dsimp only
    norm_num
    rw [requestLoop_cons]
    cases hc1 : classify (oracle 1) with
    | ret j1 => rfl
    | hardRaise e1 => rfl
    | fatal e1 => rfl
    | transient e1 =>
      dsimp only
      norm_num
      rw [requestLoop_cons]
      cases hc2 : classify (oracle 2) with
      | ret j2 => rfl
      | hardRaise e2 => rfl
      | fatal e2 => rfl
      | transient e2 => rfl

/-- Whether a classified step is a transient (retry-eligible) failure. -/
def Step.isTransient : Step → Bool
  | .transient _ => true
  | _ => false

theorem retryable_eq_isTransient (a : Attempt) :
    Attempt.retryable a = (classify a).isTransient := by
  rcases a with _ | ⟨s, body⟩
  · rfl
  · by_cases h2 : 200 ≤ s ∧ s < 300
    · have h5 : ¬ (500 ≤ s ∧ s < 600) := by omega
      rcases body with _ | j <;>
        simp [Attempt.retryable, classify, Step.isTransient, h2, h5]
    · by_cases h5 : 500 ≤ s ∧ s < 600 <;>
        simp [Attempt.retryable, classify, Step.isTransient, h2, h5]

theorem classify_success (s : Nat) (j : Json) (h1 : 200 ≤ s) (h2 : s < 300) :
    classify (.response s (some j)) = .ret j := by
  simp [classify, h1, h2]

theorem classify_decodeFail (s : Nat) (h1 : 200 ≤ s) (h2 : s < 300) :
    classify (.response s none) = .hardRaise (.decodeError s) := by
  simp [classify, h1, h2]

theorem classify_5xx (s : Nat) (b : Option Json) (h1 : 500 ≤ s) (h2 : s < 600) :
    classify (.response s b) = .transient (.httpStatusError s b) := by
  have h3 : ¬ (200 ≤ s ∧ s < 300) := by omega
  simp [classify, h1, h2, h3]

theorem classify_4xx (s : Nat) (b : Option Json) (h1 : 400 ≤ s) (h2 : s < 500) :
    classify (.response s b) = .fatal (.httpStatusError s b) := by
  have h3 : ¬ (200 ≤ s ∧ s < 300) := by omega
  have h4 : ¬ (500 ≤ s ∧ s < 600) := by omega
  simp [classify, h3, h4]

theorem classify_transient_toExc (a : Attempt) (e : Exc)
    (h : classify a = .transient e) : e = a.toExc := by
  rcases a with _ | ⟨s, body⟩
  · simp [classify] at h
    simp [Attempt.toExc, h]
  · by_cases h2 : 200 ≤ s ∧ s < 300
    · rcases body with _ | j <;> simp [classify, h2] at h
    · by_cases h5 : 500 ≤ s ∧ s < 600 <;>
        simp [classify, h2, h5] at h
      simp [Attempt.toExc, h]

theorem retryable_of_transient (a : Attempt) (e : Exc)
    (h : classify a = .transient e) : Attempt.retryable a = true := by
  rw [retryable_eq_isTransient, h]
  rfl

theorem transient_of_retryable (a : Attempt) (h : Attempt.retryable a = true) :
    classify a = .transient a.toExc := by
  rw [retryable_eq_isTransient] at h
  rcases hc : classify a with j | e | e | e
  · rw [hc] at h; simp [Step.isTransient] at h
  · rw [hc] at h; simp [Step.isTransient] at h
  · rw [← classify_transient_toExc a e hc]
  · rw [hc] at h; simp [Step.isTransient] at h

/-- Failure kinds a caller can distinguish by inspecting the raised
exception: exhausted transient failure, non-retryable HTTP error, JSON decode
failure, or an assertion failure. -/
inductive FailureKind where
  | exhaustedTransient
  | nonRetryable
  | decodeFailure
  | assertionFailure

/-- Caller-side classification of a raised exception, computed from the
exception value alone: connection errors and 5xx status errors are surfaced
only after the attempt budget is exhausted, any other status error is the
non-retryable kind. -/
def Exc.kind : Exc → FailureKind
  | .connError => .exhaustedTransient
  | .httpStatusError s _ => if 500 ≤ s ∧ s < 600 then .exhaustedTransient else .nonRetryable
  | .decodeError _ => .decodeFailure
  | .assertionError => .assertionFailure

/-- Whether a JSON value is an object. -/
def Json.isObj : Json → Bool
  | .obj _ => true
  | _ => false

/-- The static e-commerce catalog `_CATALOG` of `mock_api.py`: SKU to name. -/
def _CATALOG : List (String × String) :=
  [("HOO-XL", "Худи XL"),
   ("CAP-01", "Кепка"),
   ("SCK-02", "Носки"),
   ("GLV-03", "Перчатки")]

/-- Condition of a returned item (`ReturnCondition`). -/
inductive ReturnCondition where
  | new
  | used
  | damaged

/-- A validated `CreateReturnRequest` payload. -/
structure CreateReturnRequest where
  order_id : String
  item_sku : String
  reason : String
  condition : ReturnCondition

/-- `POST /mock/ecom/return` handler `create_return`: status 404 with a
detail object when the SKU is not a key of `_CATALOG`, otherwise status 201
with the `CreateReturnResponse` object. -/
def create_return (payload : CreateReturnRequest) : Nat × Json :=
  if payload.item_sku ∉ _CATALOG.map Prod.fst then
    (404, Json.obj [("detail", Json.str "SKU not found")])
  else
    (201, Json.obj [("rma", Json.str "RMA-7890"),
                    ("label_url", Json.str "https://example/label/RMA-7890.pdf")])

/-- A real-estate listing (`Listing`). -/
structure Listing where
  id : String
  price : Int
  address : String
  rooms : Nat
  area : Rat

/-- The three static listings `_LISTINGS` of `mock_api.py`. -/
def _LISTINGS : List Listing :=
  [⟨"APT-101", 14900000, "ul. Akademicheskaya, 12", 2, 54⟩,
   ⟨"APT-202", 14500000, "ul. Novatorov, 7", 2, 50⟩,
   ⟨"APT-303", 13900000, "pr. Vernadskogo, 19", 2, 48⟩]

/-- A validated `BookViewingRequest` payload. -/
structure BookViewingRequest where
  listing_id : String
  datetime : String
  name : String
  phone : String

/-- `POST /mock/realty/book` handler `book_viewing`: status 404 with a detail
object when the listing id is not among the ids of `_LISTINGS`, otherwise
status 201 with the `BookViewingResponse` object. -/
def book_viewing (payload : BookViewingRequest) : Nat × Json :=
  if payload.listing_id ∉ _LISTINGS.map Listing.id then
    (404, Json.obj [("detail", Json.str "Listing not found")])
  else
    (201, Json.obj [("status", Json.str "booked"),
                    ("calendar_invite", Json.str "https://example/invite/abc.ics")])

/-- C4: for every call whose first attempt receives an HTTP status in
[200,299] with a body that decodes as JSON, the parsed JSON value of that body
is returned unmodified, after exactly one attempt and with no delay. -/
theorem first_attempt_success_returns_body (method url : String)
    (oracle : Nat → Attempt) (s : Nat) (j : Json)
    (h : oracle 0 = .response s (some j)) (h1 : 200 ≤ s) (h2 : s < 300) :
    (_request method url oracle).outcome = .ok j ∧
    (_request method url oracle).attempts = 1 ∧
    (_request method url oracle).delays = [] := by
  have hm := request_eq_reqSpec method url oracle
  rw [h, classify_success s j h1 h2] at hm
  rw [hm]
  exact ⟨rfl, rfl, rfl⟩

/-- Witness for C4 at a concrete oracle: status 200, body `{"ok": true}`. -/
theorem first_attempt_success_returns_body_witness :
    (200 ≤ 200 ∧ 200 < 300) ∧
    ((_request "GET" "/healthz"
        (fun _ => Attempt.response 200 (some (Json.obj [("ok", Json.bool true)])))).outcome
        = .ok (Json.obj [("ok", Json.bool true)]) ∧
     (_request "GET" "/healthz"
        (fun _ => Attempt.response 200 (some (Json.obj [("ok", Json.bool true)])))).attempts = 1 ∧
     (_request "GET" "/healthz"
        (fun _ => Attempt.response 200 (some (Json.obj [("ok", Json.bool true)])))).delays = []) :=
  ⟨⟨by decide, by decide⟩,
   first_attempt_success_returns_body "GET" "/healthz" _ 200
     (Json.obj [("ok", Json.bool true)]) rfl (by decide) (by decide)⟩

/-- C2: for every call whose 3 attempts all fail with retryable errors, the
call raises exactly the last observed error — the exception corresponding to
the final attempt, carrying its response details — after exactly 3 attempts. -/
theorem exhausted_raises_last_error (method url : String) (oracle : Nat → Attempt)
    (h0 : Attempt.retryable (oracle 0) = true)
    (h1 : Attempt.retryable (oracle 1) = true)
    (h2 : Attempt.retryable (oracle 2) = true) :
    (_request method url oracle).attempts = 3 ∧
    (_request method url oracle).outcome = .error ((oracle 2).toExc) := by
  have hm := request_eq_reqSpec method url oracle
  rw [transient_of_retryable _ h0, transient_of_retryable _ h1,
    transient_of_retryable _ h2] at hm
  rw [hm]
  exact ⟨rfl, rfl⟩

/-- Witness for C2: HTTP 503 three times raises the status error carrying the
final 503 response, after exactly 3 attempts. -/
theorem exhausted_raises_last_error_witness :
    Attempt.retryable (Attempt.response 503 none) = true ∧
    ((_request "GET" "/mock/ecom/order" (fun _ => Attempt.response 503 none)).attempts = 3 ∧
     (_request "GET" "/mock/ecom/order" (fun _ => Attempt.response 503 none)).outcome
        = .error (Exc.httpStatusError 503 none)) :=
  ⟨by decide,
   exhausted_raises_last_error "GET" "/mock/ecom/order" _ (by decide) (by decide) (by decide)⟩

/-- C3: for every call where some performed attempt receives an HTTP 4xx
status, the error is raised to the caller immediately after that attempt —
the attempt count stops at that attempt, no backoff delay follows it, and the
remaining retries are not consumed. -/
theorem client_error_raises_immediately (method url : String)
    (oracle : Nat → Attempt) (i s : Nat) (b : Option Json)
    (hi : i < (_request method url oracle).attempts)
    (h : oracle i = .response s b) (h4 : 400 ≤ s) (h5 : s < 500) :
    (_request method url oracle).attempts = i + 1 ∧
    (_request method url oracle).outcome = .error (.httpStatusError s b) ∧
    (_request method url oracle).delays.length = i := by
  have hfat : classify (oracle i) = .fatal (.httpStatusError s b) := by
    rw [h]; exact classify_4xx s b h4 h5
  have hm := request_eq_reqSpec method url oracle
  cases hc0 : classify (oracle 0) with
  | ret j0 =>
    rw [hc0] at hm
    have ha : (_request method url oracle).attempts = 1 := by rw [hm]; rfl
    have hi0 : i = 0 := by omega
    rw [hi0, hc0] at hfat
    simp at hfat
  | hardRaise e0 =>
    rw [hc0] at hm
    have ha : (_request method url oracle).attempts = 1 := by rw [hm]; rfl
    have hi0 : i = 0 := by omega
    rw [hi0, hc0] at hfat
    simp at hfat
  | fatal e0 =>
    rw [hc0] at hm
    have ha : (_request method url oracle).attempts = 1 := by rw [hm]; rfl
    have hi0 : i = 0 := by omega
    rw [hi0, hc0] at hfat
    have he : e0 = .httpStatusError s b := by
      injection hfat
    rw [hi0, hm, he]
    exact ⟨rfl, rfl, rfl⟩
  | transient e0 =>
    rw [hc0] at hm
    cases hc1 : classify (oracle 1) with
    | ret j1 =>
      rw [hc1] at hm
      have ha : (_request method url oracle).attempts = 2 := by rw [hm]; rfl
      have hi01 : i = 0 ∨ i = 1 := by omega
      rcases hi01 with hi0 | hi1
      · rw [hi0, hc0] at hfat; simp at hfat
      · rw [hi1, hc1] at hfat; simp at hfat
    | hardRaise e1 =>
      rw [hc1] at hm
      have ha : (_request method url oracle).attempts = 2 := by rw [hm]; rfl
      have hi01 : i = 0 ∨ i = 1 := by omega
      rcases hi01 with hi0 | hi1
      · rw [hi0, hc0] at hfat; simp at hfat
      · rw [hi1, hc1] at hfat; simp at hfat
    | fatal e1 =>
      rw [hc1] at hm
      have ha : (_request method url oracle).attempts = 2 := by rw [hm]; rfl
      have hi01 : i = 0 ∨ i = 1 := by omega
      rcases hi01 with hi0 | hi1
      · rw [hi0, hc0] at hfat; simp at hfat
      · rw [hi1, hc1] at hfat
        have he : e1 = .httpStatusError s b := by injection hfat
        rw [hi1, hm, he]
        exact ⟨rfl, rfl, rfl⟩
    | transient e1 =>
      rw [hc1] at hm
      cases hc2 : classify (oracle 2) with
      | ret j2 =>
        rw [hc2] at hm
        have ha : (_request method url oracle).attempts = 3 := by rw [hm]; rfl
        have hi012 : i = 0 ∨ i = 1 ∨ i = 2 := by omega
        rcases hi012 with hi0 | hi1 | hi2
        · rw [hi0, hc0] at hfat; simp at hfat
        · rw [hi1, hc1] at hfat; simp at hfat
        · rw [hi2, hc2] at hfat; simp at hfat
      | hardRaise e2 =>
        rw [hc2] at hm
        have ha : (_request method url oracle).attempts = 3 := by rw [hm]; rfl
        have hi012 : i = 0 ∨ i = 1 ∨ i = 2 := by omega
        rcases hi012 with hi0 | hi1 | hi2
        · rw [hi0, hc0] at hfat; simp at hfat
        · rw [hi1, hc1] at hfat; simp at hfat
        · rw [hi2, hc2] at hfat; simp at hfat
      | transient e2 =>
        rw [hc2] at hm
        have ha : (_request method url oracle).attempts = 3 := by rw [hm]; rfl
        have hi012 : i = 0 ∨ i = 1 ∨ i = 2 := by omega
        rcases hi012 with hi0 | hi1 | hi2
        · rw [hi0, hc0] at hfat; simp at hfat
        · rw [hi1, hc1] at hfat; simp at hfat
        · rw [hi2, hc2] at hfat; simp at hfat
      | fatal e2 =>
        rw [hc2] at hm
        have ha : (_request method url oracle).attempts = 3 := by rw [hm]; rfl
        have hi012 : i = 0 ∨ i = 1 ∨ i = 2 := by omega
        rcases hi012 with hi0 | hi1 | hi2
        · rw [hi0, hc0] at hfat; simp at hfat
        · rw [hi1, hc1] at hfat; simp at hfat
        · rw [hi2, hc2] at hfat
          have he : e2 = .httpStatusError s b := by injection hfat
          rw [hi2, hm, he]
          exact ⟨rfl, rfl, rfl⟩

/-- Witness for C3: HTTP 404 on the first attempt raises immediately after
exactly 1 attempt with no backoff delay. -/
theorem client_error_raises_immediately_witness :
    (0 < (_request "GET" "/mock/ecom/order" (fun _ => Attempt.response 404 none)).attempts ∧
     400 ≤ 404 ∧ 404 < 500) ∧
    ((_request "GET" "/mock/ecom/order" (fun _ => Attempt.response 404 none)).attempts = 0 + 1 ∧
     (_request "GET" "/mock/ecom/order" (fun _ => Attempt.response 404 none)).outcome
        = .error (Exc.httpStatusError 404 none) ∧
     (_request "GET" "/mock/ecom/order" (fun _ => Attempt.response 404 none)).delays.length = 0) :=
  ⟨⟨by decide, by decide, by decide⟩,
   client_error_raises_immediately "GET" "/mock/ecom/order" _ 0 404 none
     (by decide) rfl (by decide) (by decide)⟩

/-- C6: for every call where some performed attempt receives a success status
with a body that is not valid JSON, the decode failure is propagated to the
caller immediately from that attempt — it is never retried and no backoff
delay follows it. -/
theorem decode_failure_raises_immediately (method url : String)
    (oracle : Nat → Attempt) (i s : Nat)
    (hi : i < (_request method url oracle).attempts)
    (h : oracle i = .response s none) (h1 : 200 ≤ s) (h2 : s < 300) :
    (_request method url oracle).attempts = i + 1 ∧
    (_request method url oracle).outcome = .error (.decodeError s) ∧
    (_request method url oracle).delays.length = i := by
  have hdec : classify (oracle i) = .hardRaise (.decodeError s) := by
    rw [h]; exact classify_decodeFail s h1 h2
  have hm := request_eq_reqSpec method url oracle
  cases hc0 : classify (oracle 0) with
  | ret j0 =>
    rw [hc0] at hm
    have ha : (_request method url oracle).attempts = 1 := by rw [hm]; rfl
    have hi0 : i = 0 := by omega
    rw [hi0, hc0] at hdec
    simp at hdec
  | hardRaise e0 =>
    rw [hc0] at hm
    have ha : (_request method url oracle).attempts = 1 := by rw [hm]; rfl
    have hi0 : i = 0 := by omega
    rw [hi0, hc0] at hdec
    have he : e0 = .decodeError s := by injection hdec
    rw [hi0, hm, he]
    exact ⟨rfl, rfl, rfl⟩
  | fatal e0 =>
    rw [hc0] at hm
    have ha : (_request method url oracle).attempts = 1 := by rw [hm]; rfl
    have hi0 : i = 0 := by omega
    rw [hi0, hc0] at hdec
    simp at hdec
  | transient e0 =>
    rw [hc0] at hm
    cases hc1 : classify (oracle 1) with
    | ret j1 =>
      rw [hc1] at hm
      have ha : (_request method url oracle).attempts = 2 := by rw [hm]; rfl
      have hi01 : i = 0 ∨ i = 1 := by omega
      rcases hi01 with hi0 | hi1
      · rw [hi0, hc0] at hdec; simp at hdec
      · rw [hi1, hc1] at hdec; simp at hdec
    | hardRaise e1 =>
      rw [hc1] at hm
      have ha : (_request method url oracle).attempts = 2 := by rw [hm]; rfl
      have hi01 : i = 0 ∨ i = 1 := by omega
      rcases hi01 with hi0 | hi1
      · rw [hi0, hc0] at hdec; simp at hdec
      · rw [hi1, hc1] at hdec
        have he : e1 = .decodeError s := by injection hdec
        rw [hi1, hm, he]
        exact ⟨rfl, rfl, rfl⟩
    | fatal e1 =>
      rw [hc1] at hm
      have ha : (_request method url oracle).attempts = 2 := by rw [hm]; rfl
      have hi01 : i = 0 ∨ i = 1 := by omega
      rcases hi01 with hi0 | hi1
      · rw [hi0, hc0] at hdec; simp at hdec
      · rw [hi1, hc1] at hdec; simp at hdec
    | transient e1 =>
      rw [hc1] at hm
      cases hc2 : classify (oracle 2) with
      | ret j2 =>
        rw [hc2] at hm
        have ha : (_request method url oracle).attempts = 3 := by rw [hm]; rfl
        have hi012 : i = 0 ∨ i = 1 ∨ i = 2 := by omega
        rcases hi012 with hi0 | hi1 | hi2
        · rw [hi0, hc0] at hdec; simp at hdec
        · rw [hi1, hc1] at hdec; simp at hdec
        · rw [hi2, hc2] at hdec; simp at hdec
      | hardRaise e2 =>
        rw [hc2] at hm
        have ha : (_request method url oracle).attempts = 3 := by rw [hm]; rfl
        have hi012 : i = 0 ∨ i = 1 ∨ i = 2 := by omega
        rcases hi012 with hi0 | hi1 | hi2
        · rw [hi0, hc0] at hdec; simp at hdec
        · rw [hi1, hc1] at hdec; simp at hdec
        · rw [hi2, hc2] at hdec
          have he : e2 = .decodeError s := by injection hdec
          rw [hi2, hm, he]
          exact ⟨rfl, rfl, rfl⟩
      | transient e2 =>
        rw [hc2] at hm
        have ha : (_request method url oracle).attempts = 3 := by rw [hm]; rfl
        have hi012 : i = 0 ∨ i = 1 ∨ i = 2 := by omega
        rcases hi012 with hi0 | hi1 | hi2
        · rw [hi0, hc0] at hdec; simp at hdec
        · rw [hi1, hc1] at hdec; simp at hdec
        · rw [hi2, hc2] at hdec; simp at hdec
      | fatal e2 =>
        rw [hc2] at hm
        have ha : (_request method url oracle).attempts = 3 := by rw [hm]; rfl
        have hi012 : i = 0 ∨ i = 1 ∨ i = 2 := by omega
        rcases hi012 with hi0 | hi1 | hi2
        · rw [hi0, hc0] at hdec; simp at hdec
        · rw [hi1, hc1] at hdec; simp at hdec
        · rw [hi2, hc2] at hdec; simp at hdec

/-- Witness for C6: a 200 response whose body does not decode raises the
decode error after exactly 1 attempt with no delay. -/
theorem decode_failure_raises_immediately_witness :
    (0 < (_request "GET" "/mock/ecom/order" (fun _ => Attempt.response 200 none)).attempts ∧
     200 ≤ 200 ∧ 200 < 300) ∧
    ((_request "GET" "/mock/ecom/order" (fun _ => Attempt.response 200 none)).attempts = 0 + 1 ∧
     (_request "GET" "/mock/ecom/order" (fun _ => Attempt.response 200 none)).outcome
        = .error (Exc.decodeError 200) ∧
     (_request "GET" "/mock/ecom/order" (fun _ => Attempt.response 200 none)).delays.length = 0) :=
  ⟨⟨by decide, by decide, by decide⟩,
   decode_failure_raises_immediately "GET" "/mock/ecom/order" _ 0 200
     (by decide) rfl (by decide) (by decide)⟩

/-- C5: the backoff delay before attempt k+1 is 0.5·2^k time-units (0.5 before
the 2nd attempt, 1.0 before the 3rd), and no delay occurs after the final
attempt; in particular a call seeing 503, 503, 200 succeeds on the 3rd attempt
with total inserted delay 0.5 + 1.0 = 1.5. -/
theorem backoff_delays (method url : String) (oracle : Nat → Attempt) (j : Json)
    (b0 b1 : Option Json) :
    (_request method url oracle).delays =
      (List.range ((_request method url oracle).attempts - 1)).map
        (fun k => (1 / 2 : Rat) * 2 ^ k) ∧
    (oracle 0 = .response 503 b0 → oracle 1 = .response 503 b1 →
      oracle 2 = .response 200 (some j) →
      (_request method url oracle).attempts = 3 ∧
      (_request method url oracle).outcome = .ok j ∧
      (_request method url oracle).delays.sum = 3 / 2) := by
  have hm := request_eq_reqSpec method url oracle
  constructor
  · cases hc0 : classify (oracle 0) with
    | ret j0 => rw [hc0] at hm; rw [hm]; norm_num [reqSpec, List.range_succ]
    | hardRaise e0 => rw [hc0] at hm; rw [hm]; norm_num [reqSpec, List.range_succ]
    | fatal e0 => rw [hc0] at hm; rw [hm]; norm_num [reqSpec, List.range_succ]
    | transient e0 =>
      rw [hc0] at hm
      cases hc1 : classify (oracle 1) with
      | ret j1 => rw [hc1] at hm; rw [hm]; norm_num [reqSpec, List.range_succ]
      | hardRaise e1 => rw [hc1] at hm; rw [hm]; norm_num [reqSpec, List.range_succ]
      | fatal e1 => rw [hc1] at hm; rw [hm]; norm_num [reqSpec, List.range_succ]
      | transient e1 =>
        rw [hc1] at hm
        cases hc2 : classify (oracle 2) with
        | ret j2 => rw [hc2] at hm; rw [hm]; norm_num [reqSpec, List.range_succ]
        | hardRaise e2 => rw [hc2] at hm; rw [hm]; norm_num [reqSpec, List.range_succ]
        | fatal e2 => rw [hc2] at hm; rw [hm]; norm_num [reqSpec, List.range_succ]
        | transient e2 => rw [hc2] at hm; rw [hm]; norm_num [reqSpec, List.range_succ]
  · intro h0 h1 h2
    have hc0 : classify (oracle 0) = .transient (.httpStatusError 503 b0) := by
      rw [h0]; exact classify_5xx 503 b0 (by norm_num) (by norm_num)
    have hc1 : classify (oracle 1) = .transient (.httpStatusError 503 b1) := by
      rw [h1]; exact classify_5xx 503 b1 (by norm_num) (by norm_num)
    have hc2 : classify (oracle 2) = .ret j := by
      rw [h2]; exact classify_success 200 j (by norm_num) (by norm_num)
    rw [hc0, hc1, hc2] at hm
    rw [hm]
    refine ⟨rfl, rfl, ?_⟩
    norm_num [reqSpec, List.range_succ]

/-- Witness for C5 at the concrete 503, 503, 200 oracle. -/
theorem backoff_delays_witness :
    ((_request "GET" "/mock/ecom/order"
        (fun a => if a < 2 then Attempt.response 503 none else Attempt.response 200 (some Json.null))).attempts = 3 ∧
     (_request "GET" "/mock/ecom/order"
        (fun a => if a < 2 then Attempt.response 503 none else Attempt.response 200 (some Json.null))).outcome
        = .ok Json.null ∧
     (_request "GET" "/mock/ecom/order"
        (fun a => if a < 2 then Attempt.response 503 none else Attempt.response 200 (some Json.null))).delays.sum
        = 3 / 2) :=
  (backoff_delays "GET" "/mock/ecom/order"
    (fun a => if a < 2 then Attempt.response 503 none else Attempt.response 200 (some Json.null))
    Json.null none none).2 rfl rfl rfl

/-- C1: every call makes at most 3 total attempts, and a performed attempt is
followed by a retry if and only if it was a retryable failure (connection
error or 5xx status) and the attempt budget is not exhausted. -/
theorem retry_iff_transient_and_budget (method url : String)
    (oracle : Nat → Attempt) (i : Nat)
    (hi : i < (_request method url oracle).attempts) :
    (_request method url oracle).attempts ≤ 3 ∧
    (i + 1 < (_request method url oracle).attempts ↔
      Attempt.retryable (oracle i) = true ∧ i < 2) := by
  have hm := request_eq_reqSpec method url oracle
  cases hc0 : classify (oracle 0) with
  | ret j0 =>
    rw [hc0] at hm
    have ha : (_request method url oracle).attempts = 1 := by rw [hm]; rfl
    have hi0 : i = 0 := by omega
    subst hi0
    rw [ha]
    refine ⟨by norm_num, ?_⟩
    rw [retryable_eq_isTransient, hc0]
    simp [Step.isTransient]
  | hardRaise e0 =>
    rw [hc0] at hm
    have ha : (_request method url oracle).attempts = 1 := by rw [hm]; rfl
    have hi0 : i = 0 := by omega
    subst hi0
    rw [ha]
    refine ⟨by norm_num, ?_⟩
    rw [retryable_eq_isTransient, hc0]
    simp [Step.isTransient]
  | fatal e0 =>
    rw [hc0] at hm
    have ha : (_request method url oracle).attempts = 1 := by rw [hm]; rfl
    have hi0 : i = 0 := by omega
    subst hi0
    rw [ha]
    refine ⟨by norm_num, ?_⟩
    rw [retryable_eq_isTransient, hc0]
    simp [Step.isTransient]
  | transient e0 =>
    rw [hc0] at hm
    cases hc1 : classify (oracle 1) with
    | ret j1 =>
      rw [hc1] at hm
      have ha : (_request method url oracle).attempts = 2 := by rw [hm]; rfl
      have hi01 : i = 0 ∨ i = 1 := by omega
      rcases hi01 with hi' | hi' <;> subst hi' <;> rw [ha] <;> refine ⟨by norm_num, ?_⟩
      · rw [retryable_eq_isTransient, hc0]
        simp [Step.isTransient]
      · rw [retryable_eq_isTransient, hc1]
        simp [Step.isTransient]
    | hardRaise e1 =>
      rw [hc1] at hm
      have ha : (_request method url oracle).attempts = 2 := by rw [hm]; rfl
      have hi01 : i = 0 ∨ i = 1 := by omega
      rcases hi01 with hi' | hi' <;> subst hi' <;> rw [ha] <;> refine ⟨by norm_num, ?_⟩
      · rw [retryable_eq_isTransient, hc0]
        simp [Step.isTransient]
      · rw [retryable_eq_isTransient, hc1]
        simp [Step.isTransient]
    | fatal e1 =>
      rw [hc1] at hm
      have ha : (_request method url oracle).attempts = 2 := by rw [hm]; rfl
      have hi01 : i = 0 ∨ i = 1 := by omega
      rcases hi01 with hi' | hi' <;> subst hi' <;> rw [ha] <;> refine ⟨by norm_num, ?_⟩
      · rw [retryable_eq_isTransient, hc0]
        simp [Step.isTransient]
      · rw [retryable_eq_isTransient, hc1]
        simp [Step.isTransient]
    | transient e1 =>
      rw [hc1] at hm
      have ha : (_request method url oracle).attempts = 3 := by
        rw [hm]; cases classify (oracle 2) <;> rfl
      have hi012 : i = 0 ∨ i = 1 ∨ i = 2 := by omega
      rcases hi012 with hi' | hi' | hi' <;> subst hi' <;> rw [ha] <;> refine ⟨by norm_num, ?_⟩
      · rw [retryable_eq_isTransient, hc0]
        simp [Step.isTransient]
      · rw [retryable_eq_isTransient, hc1]
        simp [Step.isTransient]
      · simp

/-- Witness for C1 at a concrete oracle (503 then 200): attempt 0 is retried,
attempt 1 is not. -/
theorem retry_iff_transient_and_budget_witness :
    (0 < (_request "GET" "/healthz"
        (fun a => if a = 0 then Attempt.response 503 none
                  else Attempt.response 200 (some Json.null))).attempts) ∧
    ((_request "GET" "/healthz"
        (fun a => if a = 0 then Attempt.response 503 none
                  else Attempt.response 200 (some Json.null))).attempts ≤ 3 ∧
     (0 + 1 < (_request "GET" "/healthz"
        (fun a => if a = 0 then Attempt.response 503 none
                  else Attempt.response 200 (some Json.null))).attempts ↔
       Attempt.retryable ((fun a => if a = 0 then Attempt.response 503 none
                  else Attempt.response 200 (some Json.null)) 0) = true ∧ 0 < 2)) :=
  ⟨by decide,
   retry_iff_transient_and_budget "GET" "/healthz"
     (fun a => if a = 0 then Attempt.response 503 none
               else Attempt.response 200 (some Json.null)) 0 (by decide)⟩

/-- C7 (amended): a warning carrying the 1-based attempt number is logged
exactly for each attempt that failed transiently and was followed by a retry;
every non-final attempt is such an attempt, and the final attempt never logs
a warning — so the warnings are exactly 1, ..., attempts-1. -/
theorem warnings_per_retried_attempt (method url : String) (oracle : Nat → Attempt) :
    (_request method url oracle).warnings =
      (List.range ((_request method url oracle).attempts - 1)).map (fun k => k + 1) ∧
    (∀ k, k + 1 < (_request method url oracle).attempts →
      Attempt.retryable (oracle k) = true) := by
  have hm := request_eq_reqSpec method url oracle
  cases hc0 : classify (oracle 0) with
  | ret j0 =>
    rw [hc0] at hm
    have ha : (_request method url oracle).attempts = 1 := by rw [hm]; rfl
    refine ⟨by rw [ha, hm]; rfl, ?_⟩
    intro k hk
    rw [ha] at hk
    exact absurd hk (by omega)
  | hardRaise e0 =>
    rw [hc0] at hm
    have ha : (_request method url oracle).attempts = 1 := by rw [hm]; rfl
    refine ⟨by rw [ha, hm]; rfl, ?_⟩
    intro k hk
    rw [ha] at hk
    exact absurd hk (by omega)
  | fatal e0 =>
    rw [hc0] at hm
    have ha : (_request method url oracle).attempts = 1 := by rw [hm]; rfl
    refine ⟨by rw [ha, hm]; rfl, ?_⟩
    intro k hk
    rw [ha] at hk
    exact absurd hk (by omega)
  | transient e0 =>
    rw [hc0] at hm
    cases hc1 : classify (oracle 1) with
    | ret j1 =>
      rw [hc1] at hm
      have ha : (_request method url oracle).attempts = 2 := by rw [hm]; rfl
      refine ⟨by rw [ha, hm]; norm_num [reqSpec, List.range_succ], ?_⟩
      intro k hk
      rw [ha] at hk
      have hk0 : k = 0 := by omega
      subst hk0
      exact retryable_of_transient _ e0 hc0
    | hardRaise e1 =>
      rw [hc1] at hm
      have ha : (_request method url oracle).attempts = 2 := by rw [hm]; rfl
      refine ⟨by rw [ha, hm]; norm_num [reqSpec, List.range_succ], ?_⟩
      intro k hk
      rw [ha] at hk
      have hk0 : k = 0 := by omega
      subst hk0
      exact retryable_of_transient _ e0 hc0
    | fatal e1 =>
      rw [hc1] at hm
      have ha : (_request method url oracle).attempts = 2 := by rw [hm]; rfl
      refine ⟨by rw [ha, hm]; norm_num [reqSpec, List.range_succ], ?_⟩
      intro k hk
      rw [ha] at hk
      have hk0 : k = 0 := by omega
      subst hk0
      exact retryable_of_transient _ e0 hc0
    | transient e1 =>
      rw [hc1] at hm
      have ha : (_request method url oracle).attempts = 3 := by
        rw [hm]; cases classify (oracle 2) <;> rfl
      have hw : (_request method url oracle).warnings = [1, 2] := by
        rw [hm]; cases classify (oracle 2) <;> rfl
      refine ⟨by rw [hw, ha]; norm_num [List.range_succ], ?_⟩
      intro k hk
      rw [ha] at hk
      have hk01 : k = 0 ∨ k = 1 := by omega
      rcases hk01 with hk' | hk' <;> subst hk'
      · exact retryable_of_transient _ e0 hc0
      · exact retryable_of_transient _ e1 hc1

/-- Witness for C7's amended claim at the all-503 oracle. -/
theorem warnings_per_retried_attempt_witness :
    ((_request "GET" "/mock/ecom/order" (fun _ => Attempt.response 503 none)).warnings =
      (List.range ((_request "GET" "/mock/ecom/order"
        (fun _ => Attempt.response 503 none)).attempts - 1)).map (fun k => k + 1)) ∧
    (1 + 1 < (_request "GET" "/mock/ecom/order" (fun _ => Attempt.response 503 none)).attempts ∧
     Attempt.retryable ((fun (_ : Nat) => Attempt.response 503 none) 1) = true) :=
  ⟨(warnings_per_retried_attempt "GET" "/mock/ecom/order"
      (fun _ => Attempt.response 503 none)).1,
   by decide,
   (warnings_per_retried_attempt "GET" "/mock/ecom/order"
      (fun _ => Attempt.response 503 none)).2 1 (by decide)⟩

/-- Counterexample to C7 as stated: with HTTP 503 on all three attempts, all 3
attempts fail transiently, yet only 2 warnings are emitted — the final
transient failure, which exhausts the budget, logs no warning. -/
theorem warning_on_final_failure_counterexample :
    (_request "GET" "/mock/ecom/order" (fun _ => Attempt.response 503 none)).attempts = 3 ∧
    (∀ k, k < 3 →
      Attempt.retryable ((fun (_ : Nat) => Attempt.response 503 none) k) = true) ∧
    (_request "GET" "/mock/ecom/order" (fun _ => Attempt.response 503 none)).warnings.length = 2 := by
  refine ⟨by decide, ?_, by decide⟩
  intro k _
  rfl

theorem kind_of_transient (a : Attempt) (e : Exc)
    (h : classify a = .transient e) : e.kind = .exhaustedTransient := by
  rcases a with _ | ⟨s, body⟩
  · simp [classify] at h
    rw [← h]
    rfl
  · by_cases h2 : 200 ≤ s ∧ s < 300
    · rcases body with _ | j <;> simp [classify, h2] at h
    · by_cases h5 : 500 ≤ s ∧ s < 600
      · simp [classify, h2, h5] at h
        rw [← h]
        simp [Exc.kind, h5]
      · simp [classify, h2, h5] at h

/-- C8: every failure of a call is raised as an inspectable exception whose
computable kind distinguishes (a) exhausted transient failure (connection
errors or 5xx after all 3 attempts) from (b) a non-retryable client error
(4xx on the final attempt), the two kinds being distinct values. -/
theorem failures_are_classifiable (method url : String) (oracle : Nat → Attempt)
    (e : Exc) (he : (_request method url oracle).outcome = .error e) :
    (((_request method url oracle).attempts = 3 ∧
        Attempt.retryable (oracle 2) = true) →
      e.kind = .exhaustedTransient) ∧
    (∀ s b, oracle ((_request method url oracle).attempts - 1) = .response s b →
      400 ≤ s → s < 500 → e.kind = .nonRetryable) ∧
    FailureKind.exhaustedTransient ≠ FailureKind.nonRetryable := by
  have hm := request_eq_reqSpec method url oracle
  refine ?_
  cases hc0 : classify (oracle 0) with
  | ret j0 =>
    rw [hc0] at hm
    rw [hm] at he
    simp [reqSpec] at he
  | hardRaise e0 =>
    rw [hc0] at hm
    have ha : (_request method url oracle).attempts = 1 := by rw [hm]; rfl
    have he0 : e = e0 := by
      rw [hm] at he
      simp [reqSpec] at he
      exact he.symm
    subst he0
    refine ⟨fun hyp => absurd (ha ▸ hyp.1) (by norm_num), ?_, by simp⟩
    intro s b hor h4 h5
    rw [ha] at hor
    have : classify (oracle 0) = .fatal (.httpStatusError s b) := by
      rw [hor]; exact classify_4xx s b h4 h5
    rw [hc0] at this
    simp at this
  | fatal e0 =>
    rw [hc0] at hm
    have ha : (_request method url oracle).attempts = 1 := by rw [hm]; rfl
    have he0 : e = e0 := by
      rw [hm] at he
      simp [reqSpec] at he
      exact he.symm
    subst he0
    refine ⟨fun hyp => absurd (ha ▸ hyp.1) (by norm_num), ?_, by simp⟩
    intro s b hor h4 h5
    rw [ha] at hor
    have hf : classify (oracle 0) = .fatal (.httpStatusError s b) := by
      rw [hor]; exact classify_4xx s b h4 h5
    rw [hc0] at hf
    have hee : e = .httpStatusError s b := by injection hf
    subst hee
    have h5' : ¬ (500 ≤ s ∧ s < 600) := by omega
    simp [Exc.kind, h5']
  | transient e0 =>
    rw [hc0] at hm
    cases hc1 : classify (oracle 1) with
    | ret j1 =>
      rw [hc1] at hm
      rw [hm] at he
      simp [reqSpec] at he
    | hardRaise e1 =>
      rw [hc1] at hm
      have ha : (_request method url oracle).attempts = 2 := by rw [hm]; rfl
      have he1 : e = e1 := by
        rw [hm] at he
        simp [reqSpec] at he
        exact he.symm
      subst he1
      refine ⟨fun hyp => absurd (ha ▸ hyp.1) (by norm_num), ?_, by simp⟩
      intro s b hor h4 h5
      rw [ha] at hor
      have hf : classify (oracle 1) = .fatal (.httpStatusError s b) := by
        rw [hor]; exact classify_4xx s b h4 h5
      rw [hc1] at hf
      simp at hf
    | fatal e1 =>
      rw [hc1] at hm
      have ha : (_request method url oracle).attempts = 2 := by rw [hm]; rfl
      have he1 : e = e1 := by
        rw [hm] at he
        simp [reqSpec] at he
        exact he.symm
      subst he1
      refine ⟨fun hyp => absurd (ha ▸ hyp.1) (by norm_num), ?_, by simp⟩
      intro s b hor h4 h5
      rw [ha] at hor
      have hf : classify (oracle 1) = .fatal (.httpStatusError s b) := by
        rw [hor]; exact classify_4xx s b h4 h5
      rw [hc1] at hf
      have hee : e = .httpStatusError s b := by injection hf
      subst hee
      have h5' : ¬ (500 ≤ s ∧ s < 600) := by omega
      simp [Exc.kind, h5']
    | transient e1 =>
      rw [hc1] at hm
      have ha : (_request method url oracle).attempts = 3 := by
        rw [hm]; cases classify (oracle 2) <;> rfl
      cases hc2 : classify (oracle 2) with
      | ret j2 =>
        rw [hc2] at hm
        rw [hm] at he
        simp [reqSpec] at he
      | hardRaise e2 =>
        rw [hc2] at hm
        have he2 : e = e2 := by
          rw [hm] at he
          simp [reqSpec] at he
          exact he.symm
        subst he2
        refine ⟨?_, ?_, by simp⟩
        · intro hyp
          have := transient_of_retryable _ hyp.2
          rw [hc2] at this
          simp at this
        · intro s b hor h4 h5
          rw [ha] at hor
          have hf : classify (oracle 2) = .fatal (.httpStatusError s b) := by
            rw [hor]; exact classify_4xx s b h4 h5
          rw [hc2] at hf
          simp at hf
      | transient e2 =>
        rw [hc2] at hm
        have he2 : e = e2 := by
          rw [hm] at he
          simp [reqSpec] at he
          exact he.symm
        subst he2
        refine ⟨fun _ => kind_of_transient _ e hc2, ?_, by simp⟩
        intro s b hor h4 h5
        rw [ha] at hor
        have hf : classify (oracle 2) = .fatal (.httpStatusError s b) := by
          rw [hor]; exact classify_4xx s b h4 h5
        rw [hc2] at hf
        simp at hf
      | fatal e2 =>
        rw [hc2] at hm
        have he2 : e = e2 := by
          rw [hm] at he
          simp [reqSpec] at he
          exact he.symm
        subst he2
        refine ⟨?_, ?_, by simp⟩
        · intro hyp
          have := transient_of_retryable _ hyp.2
          rw [hc2] at this
          simp at this
        · intro s b hor h4 h5
          rw [ha] at hor
          have hf : classify (oracle 2) = .fatal (.httpStatusError s b) := by
            rw [hor]; exact classify_4xx s b h4 h5
          rw [hc2] at hf
          have hee : e = .httpStatusError s b := by injection hf
          subst hee
          have h5' : ¬ (500 ≤ s ∧ s < 600) := by omega
          simp [Exc.kind, h5']

/-- Witness for C8: a 404 on the first attempt yields a non-retryable kind. -/
theorem failures_are_classifiable_witness :
    ((_request "GET" "/mock/ecom/return" (fun _ => Attempt.response 404 none)).outcome
        = .error (Exc.httpStatusError 404 none) ∧
     (_request "GET" "/mock/ecom/return" (fun _ => Attempt.response 404 none)).attempts - 1 = 0 ∧
     400 ≤ 404 ∧ 404 < 500) ∧
    (Exc.httpStatusError 404 none).kind = FailureKind.nonRetryable :=
  ⟨⟨rfl, by decide, by decide, by decide⟩,
   (failures_are_classifiable "GET" "/mock/ecom/return" (fun _ => Attempt.response 404 none)
     (Exc.httpStatusError 404 none) rfl).2.1 404 none rfl (by decide) (by decide)⟩

/-- C9: each mock endpoint returns 2xx with a JSON object on success and 404
exactly on validation failure: `create_return` answers 404 iff the SKU is not
in the 4-entry catalog, `book_viewing` answers 404 iff the listing id is not
among the 3 static listings; otherwise both answer 201 with a JSON object. -/
theorem mock_validation_404_iff_unknown (rp : CreateReturnRequest)
    (bp : BookViewingRequest) :
    _CATALOG.length = 4 ∧ _LISTINGS.length = 3 ∧
    ((create_return rp).1 = 404 ↔ rp.item_sku ∉ _CATALOG.map Prod.fst) ∧
    (rp.item_sku ∈ _CATALOG.map Prod.fst →
      200 ≤ (create_return rp).1 ∧ (create_return rp).1 < 300 ∧
      (create_return rp).2.isObj = true) ∧
    ((book_viewing bp).1 = 404 ↔ bp.listing_id ∉ _LISTINGS.map Listing.id) ∧
    (bp.listing_id ∈ _LISTINGS.map Listing.id →
      200 ≤ (book_viewing bp).1 ∧ (book_viewing bp).1 < 300 ∧
      (book_viewing bp).2.isObj = true) := by
  refine ⟨rfl, rfl, ?_, ?_, ?_, ?_⟩
  · unfold create_return
    by_cases hmem : rp.item_sku ∈ _CATALOG.map Prod.fst
    · rw [if_neg (not_not_intro hmem)]
      simp [hmem]
    · rw [if_pos hmem]
      simp [hmem]
  · intro hmem
    unfold create_return
    rw [if_neg (not_not_intro hmem)]
    exact ⟨by norm_num, by norm_num, rfl⟩
  · unfold book_viewing
    by_cases hmem : bp.listing_id ∈ _LISTINGS.map Listing.id
    · rw [if_neg (not_not_intro hmem)]
      simp [hmem]
    · rw [if_pos hmem]
      simp [hmem]
  · intro hmem
    unfold book_viewing
    rw [if_neg (not_not_intro hmem)]
    exact ⟨by norm_num, by norm_num, rfl⟩

/-- Witness for C9 at concrete payloads: known SKU and known listing. -/
theorem mock_validation_404_iff_unknown_witness :
    ("HOO-XL" ∈ _CATALOG.map Prod.fst ∧ "APT-202" ∈ _LISTINGS.map Listing.id) ∧
    (200 ≤ (create_return ⟨"1234", "HOO-XL", "size", .new⟩).1 ∧
     (create_return ⟨"1234", "HOO-XL", "size", .new⟩).1 < 300 ∧
     (create_return ⟨"1234", "HOO-XL", "size", .new⟩).2.isObj = true) ∧
    (200 ≤ (book_viewing ⟨"APT-202", "2025-08-21T19:00", "Илья", "+7..."⟩).1 ∧
     (book_viewing ⟨"APT-202", "2025-08-21T19:00", "Илья", "+7..."⟩).1 < 300 ∧
     (book_viewing ⟨"APT-202", "2025-08-21T19:00", "Илья", "+7..."⟩).2.isObj = true) :=
  ⟨⟨by decide, by decide⟩,
   (mock_validation_404_iff_unknown ⟨"1234", "HOO-XL", "size", .new⟩
     ⟨"APT-202", "2025-08-21T19:00", "Илья", "+7..."⟩).2.2.2.1 (by decide),
   (mock_validation_404_iff_unknown ⟨"1234", "HOO-XL", "size", .new⟩
     ⟨"APT-202", "2025-08-21T19:00", "Илья", "+7..."⟩).2.2.2.2.2 (by decide)⟩

/-- Reformulation of the tail of `_request` (the code after the loop: the
`return`/`raise` plumbing and the `assert last_exc is not None`). -/
def finish (lr : LoopResult) : RunResult :=
  match lr.exit with
  | .returned j => ⟨.ok j, lr.attempts, lr.delays, lr.warnings⟩
  | .raised e => ⟨.error e, lr.attempts, lr.delays, lr.warnings⟩
  | .broke | .exhausted =>
    match lr.lastExc with
    | some e => ⟨.error e, lr.attempts, lr.delays, lr.warnings⟩
    | none => ⟨.error .assertionError, lr.attempts, lr.delays, lr.warnings⟩

theorem request_eq_finish (method url : String) (oracle : Nat → Attempt) :
    _request method url oracle =
      finish (requestLoop oracle [0, 1, 2] (1 / 2) none 0 [] []) := rfl

theorem classify_exc_ne_assert (a : Attempt) (e : Exc)
    (h : classify a = .hardRaise e ∨ classify a = .transient e ∨
      classify a = .fatal e) :
    e ≠ .assertionError := by
  intro heq
  subst heq
  rcases a with _ | ⟨s, body⟩
  · simp [classify] at h
  · by_cases h2 : 200 ≤ s ∧ s < 300
    · rcases body with _ | j <;> simp [classify, h2] at h
    · by_cases h5 : 500 ≤ s ∧ s < 600 <;> simp [classify, h2, h5] at h

theorem requestLoop_sound (oracle : Nat → Attempt) (L : List Nat) :
    ∀ (b : Rat) (e0 : Exc) (done : Nat) (ds : List Rat) (ws : List Nat),
      e0 ≠ Exc.assertionError →
      (∃ e, (requestLoop oracle L b (some e0) done ds ws).lastExc = some e ∧
        e ≠ Exc.assertionError) ∧
      (∀ e, (requestLoop oracle L b (some e0) done ds ws).exit = ExitKind.raised e →
        e ≠ Exc.assertionError) := by
  induction L with
  | nil =>
    intro b e0 done ds ws h0
    exact ⟨⟨e0, rfl, h0⟩, fun e h => by simp [requestLoop] at h⟩
  | cons a rest ih =>
    intro b e0 done ds ws h0
    rw [requestLoop_cons]
    cases hc : classify (oracle a) with
    | ret j =>
      exact ⟨⟨e0, rfl, h0⟩, fun e h => by simp at h⟩
    | hardRaise e =>
      refine ⟨⟨e0, rfl, h0⟩, ?_⟩
      intro e' h'
      simp at h'
      cases h'
      exact classify_exc_ne_assert _ e (Or.inl hc)
    | transient e =>
      dsimp only
      by_cases hlt : a < 2
      · rw [if_pos hlt]
        exact ih _ _ _ _ _ (classify_exc_ne_assert _ e (Or.inr (Or.inl hc)))
      · rw [if_neg hlt]
        exact ⟨⟨e, rfl, classify_exc_ne_assert _ e (Or.inr (Or.inl hc))⟩,
          fun e' h' => by simp at h'⟩
    | fatal e =>
      exact ⟨⟨e, rfl, classify_exc_ne_assert _ e (Or.inr (Or.inr hc))⟩,
        fun e' h' => by simp at h'⟩

theorem requestLoop_sound_top (oracle : Nat → Attempt) :
    ((requestLoop oracle [0, 1, 2] (1 / 2) none 0 [] []).exit = ExitKind.broke ∨
     (requestLoop oracle [0, 1, 2] (1 / 2) none 0 [] []).exit = ExitKind.exhausted →
      ∃ e, (requestLoop oracle [0, 1, 2] (1 / 2) none 0 [] []).lastExc = some e ∧
        e ≠ Exc.assertionError) ∧
    (∀ e, (requestLoop oracle [0, 1, 2] (1 / 2) none 0 [] []).exit = ExitKind.raised e →
      e ≠ Exc.assertionError) := by
  rw [requestLoop_cons]
  cases hc : classify (oracle 0) with
  | ret j =>
    constructor
    · rintro (h | h) <;> simp at h
    · intro e h; simp at h
  | hardRaise e =>
    constructor
    · rintro (h | h) <;> simp at h
    · intro e' h'
      simp at h'
      cases h'
      exact classify_exc_ne_assert _ e (Or.inl hc)
  | transient e =>
    dsimp only
    rw [if_pos (by norm_num : (0 : Nat) < 2)]
    have hs := requestLoop_sound oracle [1, 2] (1 / 2 * 2) e 1 ([] ++ [1 / 2]) ([] ++ [0 + 1])
      (classify_exc_ne_assert _ e (Or.inr (Or.inl hc)))
    exact ⟨fun _ => hs.1, hs.2⟩
  | fatal e =>
    constructor
    · intro _
      exact ⟨e, rfl, classify_exc_ne_assert _ e (Or.inr (Or.inr hc))⟩
    · intro e' h'; simp at h'

theorem finish_no_assert (lr : LoopResult)
    (h1 : lr.exit = ExitKind.broke ∨ lr.exit = ExitKind.exhausted →
      ∃ e, lr.lastExc = some e ∧ e ≠ Exc.assertionError)
    (h2 : ∀ e, lr.exit = ExitKind.raised e → e ≠ Exc.assertionError) :
    (finish lr).outcome ≠ Except.error Exc.assertionError := by
  rcases lr with ⟨exit, attempts, last, ds, ws⟩
  cases exit with
  | returned j => simp [finish]
  | raised e =>
    simp [finish]
    intro heq
    exact h2 e rfl heq
  | broke =>
    obtain ⟨e, he, hne⟩ := h1 (Or.inl rfl)
    simp at he
    subst he
    simp [finish]
    intro heq
    exact hne heq
  | exhausted =>
    obtain ⟨e, he, hne⟩ := h1 (Or.inr rfl)
    simp at he
    subst he
    simp [finish]
    intro heq
    exact hne heq

/-- C10: whenever the retry loop exits without returning (by `break` or by
exhausting the range), `last_exc` has been set, so the assertion
`assert last_exc is not None` never fails: `_request` never surfaces an
assertion error — it always either returns a parsed JSON value or raises one
of the attempt errors. -/
theorem loop_never_falls_through (method url : String) (oracle : Nat → Attempt) :
    ((requestLoop oracle [0, 1, 2] (1 / 2) none 0 [] []).exit = ExitKind.broke ∨
     (requestLoop oracle [0, 1, 2] (1 / 2) none 0 [] []).exit = ExitKind.exhausted →
      ((requestLoop oracle [0, 1, 2] (1 / 2) none 0 [] []).lastExc).isSome = true) ∧
    (_request method url oracle).outcome ≠ Except.error Exc.assertionError ∧
    ((∃ j, (_request method url oracle).outcome = Except.ok j) ∨
     (∃ e, (_request method url oracle).outcome = Except.error e)) := by
  obtain ⟨h1, h2⟩ := requestLoop_sound_top oracle
  refine ⟨?_, ?_, ?_⟩
  · intro h
    obtain ⟨e, he, -⟩ := h1 h
    rw [he]
    rfl
  · rw [request_eq_finish]
    exact finish_no_assert _ h1 h2
  · cases ho : (_request method url oracle).outcome with
    | ok j => exact Or.inl ⟨j, rfl⟩
    | error e => exact Or.inr ⟨e, rfl⟩

/-- Witness for C10 at the all-503 oracle, where the loop exits by `break`. -/
theorem loop_never_falls_through_witness :
    (requestLoop (fun _ => Attempt.response 503 none) [0, 1, 2] (1 / 2) none 0 [] []).exit
        = ExitKind.broke ∧
    ((requestLoop (fun _ => Attempt.response 503 none) [0, 1, 2] (1 / 2) none 0 [] []).lastExc).isSome
        = true ∧
    (_request "GET" "/mock/ecom/order" (fun _ => Attempt.response 503 none)).outcome
        ≠ Except.error Exc.assertionError :=
  ⟨rfl,
   (loop_never_falls_through "GET" "/mock/ecom/order"
     (fun _ => Attempt.response 503 none)).1 (Or.inl rfl),
   (loop_never_falls_through "GET" "/mock/ecom/order"
     (fun _ => Attempt.response 503 none)).2.1⟩

end AIDemo
